import Mathlib

/-!
Shallow embedding of the Patient Flow Analytics dashboard
(`src/app.py`): the age-bucketing function `get_age_group`, the
data-derivation pipeline of `main` (date coercion, hard drop,
length-of-stay and month derivation, whitespace trimming), and the
four-selector filter engine with its display/aggregate outputs.

Conventions of the embedding:
* a raw cell that pandas may fail to parse is an `Option`;
* timestamps are rationals (seconds since the epoch, timezone-naive);
* Python `int()` on a numeric value truncates toward zero, modelled by
  `truncToZero` on `ℚ`;
* pandas `errors="coerce"` parsing is modelled by the `Option`-valued
  date fields of a raw row (`none` is `NaT`).
-/

attribute [local semireducible] Rat.mul Rat.inv Rat.add Rat.sub

/-- The possible shapes of a value of the `M&MCCoD Age` column as seen by
`get_age_group`: missing (`pd.isna`), a numeric value on which Python
`int()` succeeds (its exact value as a rational), or a value on which
`int()` raises `ValueError`/`TypeError`. -/
inductive AgeValue where
  | missing : AgeValue
  | num (q : ℚ) : AgeValue
  | nonNumeric : AgeValue
deriving DecidableEq, Repr

/-- Python `int()` applied to a numeric value: truncation toward zero.
Written with `Int.tdiv` (truncated division) so that it evaluates. -/
def truncToZero (q : ℚ) : Int :=
  q.num.tdiv q.den

/-- The `age = int(age)` coercion step of `get_age_group`: `none` when the
`try` block falls into the `except` branch. -/
def int_coerce : AgeValue → Option Int
  | .missing => none
  | .num q => some (truncToZero q)
  | .nonNumeric => none

/-- The cascade of range checks of `get_age_group` after the integer
coercion has succeeded (lines 17-26 of `src/app.py`). -/
def classify_int (age : Int) : String :=
  if 0 ≤ age ∧ age ≤ 14 then "0-14 Years"
  else if 15 ≤ age ∧ age ≤ 49 then "15-49 Years"
  else if 50 ≤ age ∧ age ≤ 64 then "50-64 Years"
  else if 65 ≤ age then "65+ Years"
  else "Unknown"

/-- `get_age_group` from `src/app.py`: `pd.isna` check, integer coercion
with `Unknown` on failure, then the bucket cascade. -/
def get_age_group (a : AgeValue) : String :=
  match a with
  | .missing => "Unknown"
  | _ =>
    match int_coerce a with
    | none => "Unknown"
    | some age => classify_int age

/-- The guard of the final `else` branch of `get_age_group`: all four
range checks of `classify_int` are false, so control reaches the
fall-through that returns `Unknown`. -/
def else_branch_reached (age : Int) : Prop :=
  ¬(0 ≤ age ∧ age ≤ 14) ∧ ¬(15 ≤ age ∧ age ≤ 49) ∧
    ¬(50 ≤ age ∧ age ≤ 64) ∧ ¬(65 ≤ age)

instance (age : Int) : Decidable (else_branch_reached age) := by
  unfold else_branch_reached; infer_instance

/-!
Data-derivation pipeline of `main` (lines 47-60 of `src/app.py`).
A raw row carries the date columns already put through
`pd.to_datetime(..., errors="coerce")`: `none` is `NaT`.
-/

/-- One row of the loaded spreadsheet, dates as coercion results. -/
structure RawRow where
  sex : String
  age : AgeValue
  event_date : Option ℚ
  discharge_date : Option ℚ
  primary_diagnosis : String
  organisation_unit : String
deriving DecidableEq, Repr

/-- One row of the working dataframe after the hard drop and the derived
columns of lines 48-60 of `src/app.py`. -/
structure Record where
  sex : String
  age : AgeValue
  age_group : String
  event_date : ℚ
  discharge_date : ℚ
  primary_diagnosis : String
  organisation_unit : String
  length_of_stay_days : ℚ
  month : String
deriving DecidableEq, Repr

/-- Gregorian year and month of a day count from the epoch 1970-01-01
(the civil-from-days algorithm), used to embed
`dt.to_period("M").astype(str)`. -/
def yearMonthOfDays (z0 : Int) : Int × Int :=
  let z := z0 + 719468
  let era := Int.fdiv z 146097
  let doe := z - era * 146097
  let yoe := (doe - doe / 1460 + doe / 36524 - doe / 146096) / 365
  let y := yoe + era * 400
  let doy := doe - (365 * yoe + yoe / 4 - yoe / 100)
  let mp := (5 * doy + 2) / 153
  let m := mp + (if mp < 10 then 3 else -9)
  (if m ≤ 2 then y + 1 else y, m)

/-- Zero-padded two-digit rendering of a month number. -/
def pad2 (n : Int) : String :=
  if n < 10 then "0" ++ toString n else toString n

/-- The `Month` column: `df["Event date"].dt.to_period("M").astype(str)`,
the `YYYY-MM` label of the timestamp (seconds since the epoch). -/
def monthLabel (t : ℚ) : String :=
  let p := yearMonthOfDays ⌊t / 86400⌋
  toString p.1 ++ "-" ++ pad2 p.2

/-- Pandas `.str.strip()`: removal of leading and trailing whitespace,
written over the character list so that it evaluates. -/
def stripStr (s : String) : String :=
  ⟨((s.data.dropWhile Char.isWhitespace).reverse.dropWhile
      Char.isWhitespace).reverse⟩

/-- The hard drop of line 52:
`df.dropna(subset=["Event date", "M&MCCoD_Alive_Date of Discharge"])`. -/
def drop_incomplete (rows : List RawRow) : List RawRow :=
  rows.filter (fun r => r.event_date.isSome && r.discharge_date.isSome)

/-- Derived columns of lines 48 and 54-60 for one surviving row: age
group (trimmed), length of stay in days as
`(event - discharge).total_seconds() / (24*3600)`, month label, and the
`.str.strip()` of the diagnosis and organisation-unit columns. `none`
when the row does not survive the hard drop. -/
def mkRecord (r : RawRow) : Option Record :=
  match r.event_date, r.discharge_date with
  | some e, some d =>
    some { sex := r.sex
           age := r.age
           age_group := stripStr (get_age_group r.age)
           event_date := e
           discharge_date := d
           primary_diagnosis := stripStr r.primary_diagnosis
           organisation_unit := stripStr r.organisation_unit
           length_of_stay_days := (e - d) / (24 * 3600)
           month := stripStr (monthLabel e) }
  | _, _ => none

/-- The whole derivation pipeline: hard drop, then per-row derived
columns, in the order of `main`. -/
def deriveRecords (rows : List RawRow) : List Record :=
  (drop_incomplete rows).filterMap mkRecord

/-- A raw row whose dates both parsed: event at day 10, discharge at
day 5 of the epoch. -/
def fluRow : RawRow :=
  { sex := "F"
    age := .num 30
    event_date := some 864000
    discharge_date := some 432000
    primary_diagnosis := "Flu"
    organisation_unit := "ClinicA" }

/-- The derived record of `fluRow`. -/
def fluRecord : Record :=
  { sex := "F"
    age := .num 30
    age_group := "15-49 Years"
    event_date := 864000
    discharge_date := 432000
    primary_diagnosis := "Flu"
    organisation_unit := "ClinicA"
    length_of_stay_days := 5
    month := "1970-01" }

/-- A raw row whose event date failed to parse. -/
def badRow : RawRow :=
  { fluRow with event_date := none }

/-!
Filter engine of `main` (lines 74-83 of `src/app.py`): four sequential
conditional equality filters, each guarded by its sentinel value.
-/

/-- The four sidebar selector values. -/
structure Selectors where
  month : String
  diagnosis : String
  age_group : String
  org_unit : String
deriving DecidableEq, Repr

/-- The sentinel tuple meaning no restriction on any dimension. -/
def allSelectors : Selectors :=
  { month := "All"
    diagnosis := "All Diagnoses"
    age_group := "All Age Groups"
    org_unit := "All Units" }

/-- Lines 75-83 of `src/app.py`: start from the full derived set and
narrow it once per selector that is not set to its sentinel. -/
def applyFilters (recs : List Record) (sel : Selectors) : List Record :=
  let f1 := if sel.month ≠ "All"
    then recs.filter (fun p => p.month == sel.month) else recs
  let f2 := if sel.diagnosis ≠ "All Diagnoses"
    then f1.filter (fun p => p.primary_diagnosis == sel.diagnosis) else f1
  let f3 := if sel.age_group ≠ "All Age Groups"
    then f2.filter (fun p => p.age_group == sel.age_group) else f2
  if sel.org_unit ≠ "All Units"
    then f3.filter (fun p => p.organisation_unit == sel.org_unit) else f3

/-- The four equality predicates merged into one boolean test: a record
passes each dimension whose selector is not the sentinel. -/
def selPred (sel : Selectors) (p : Record) : Bool :=
  (sel.month == "All" || p.month == sel.month) &&
  (sel.diagnosis == "All Diagnoses" || p.primary_diagnosis == sel.diagnosis) &&
  (sel.age_group == "All Age Groups" || p.age_group == sel.age_group) &&
  (sel.org_unit == "All Units" || p.organisation_unit == sel.org_unit)

/-- A selector tuple restricting only the month. -/
def monthSel : Selectors :=
  { allSelectors with month := "1970-01" }

/-- A selector tuple matching nothing in the sample data. -/
def noMatchSel : Selectors :=
  { allSelectors with month := "2099-12" }

/-!
Display and aggregate outputs (lines 85-146 of `src/app.py`). Both the
row table and the whole charts block are guarded by
`if not filtered_patients.empty:`; an empty filtered set short-circuits
to the no-data branch.
-/

/-- An output element of the dashboard: either an explicit no-data
signal or rendered content. -/
inductive Display (α : Type) where
  | noData : Display α
  | shown (a : α) : Display α
deriving DecidableEq, Repr

/-- Insertion of an element into a list sorted by `le`. -/
def insertBy {α : Type} (le : α → α → Bool) (x : α) : List α → List α
  | [] => [x]
  | y :: ys => if le x y then x :: y :: ys else y :: insertBy le x ys

/-- Insertion sort by `le`, used to embed the sorted orders of the
pandas group-by outputs. -/
def sortBy {α : Type} (le : α → α → Bool) : List α → List α
  | [] => []
  | x :: xs => insertBy le x (sortBy le xs)

/-- Counts of records per distinct key value, keys in first-occurrence
order. -/
def groupCount (key : Record → String) (l : List Record) :
    List (String × Nat) :=
  ((l.map key).dedup).map
    (fun k => (k, (l.filter (fun r => key r == k)).length))

/-- `filtered_patients.groupby("Month").size()`: counts per month,
months ascending. -/
def monthly_trend (l : List Record) : List (String × Nat) :=
  sortBy (fun a b => decide (a.1 ≤ b.1)) (groupCount Record.month l)

/-- `value_counts()` of a column: counts per distinct value, descending
by count. -/
def value_counts (key : Record → String) (l : List Record) :
    List (String × Nat) :=
  sortBy (fun a b => decide (b.2 ≤ a.2)) (groupCount key l)

/-- Length-of-stay samples grouped by diagnosis, for the boxplot. -/
def losByDiagnosis (l : List Record) : List (String × List ℚ) :=
  ((l.map (fun r => r.primary_diagnosis)).dedup).map
    (fun k => (k, (l.filter (fun r => r.primary_diagnosis == k)).map
      (fun r => r.length_of_stay_days)))

/-- The five chart data series of the analysis section. -/
structure ChartSet where
  monthlyTrend : List (String × Nat)
  ageDist : List (String × Nat)
  orgCounts : List (String × Nat)
  losValues : List ℚ
  losBoxplot : List (String × List ℚ)
deriving DecidableEq, Repr

/-- Lines 87-94: the filtered patient details table (selected columns,
1-based sequential index), or the no-data warning when the filtered set
is empty. -/
def renderTable (l : List Record) :
    Display (List (Nat × String × AgeValue × String × String × String × ℚ)) :=
  if l.isEmpty then Display.noData
  else Display.shown
    ((l.map (fun r => (r.sex, r.age, r.age_group, r.primary_diagnosis,
        r.organisation_unit, r.length_of_stay_days))).enum.map
      (fun p => (p.1 + 1, p.2)))

/-- Lines 99-146: the charts block, computed only when the filtered set
is nonempty. -/
def renderCharts (l : List Record) : Display ChartSet :=
  if l.isEmpty then Display.noData
  else Display.shown
    { monthlyTrend := monthly_trend l
      ageDist := value_counts Record.age_group l
      orgCounts := value_counts Record.organisation_unit l
      losValues := l.map (fun r => r.length_of_stay_days)
      losBoxplot := losByDiagnosis l }

/-- Arithmetic mean of a list of rationals. -/
def mean (xs : List ℚ) : ℚ :=
  xs.sum / (xs.length : ℚ)

/-- Modelled from the spec: the repository's second script variant (not
under `src/`) renders an average-length-of-stay-by-diagnosis chart; per
the spec it is the mean of `length_of_stay_days` grouped by
`primary_diagnosis`, sorted descending by mean value and truncated to
the 10 largest, with diagnoses having no surviving records absent. -/
def avg_los_by_diagnosis_top10 (recs : List Record) : List (String × ℚ) :=
  let keys := (recs.map (fun r => r.primary_diagnosis)).dedup
  let means := keys.map
    (fun k => (k, mean ((recs.filter
      (fun r => r.primary_diagnosis == k)).map
        (fun r => r.length_of_stay_days))))
  (sortBy (fun a b => decide (b.2 ≤ a.2)) means).take 10

/-!
Supporting lemmas, then one theorem (plus witness or counterexample)
per specification claim.
-/

theorem truncToZero_eq_floor (q : ℚ) (h : 0 ≤ q) : truncToZero q = ⌊q⌋ := by
  unfold truncToZero
  rw [Int.tdiv_eq_ediv (Rat.num_nonneg.mpr h) (Int.natCast_nonneg _), Rat.floor_def]

theorem truncToZero_neg (q : ℚ) : truncToZero (-q) = -truncToZero q := by
  unfold truncToZero
  rw [Rat.num_neg_eq_neg_num, Rat.den_neg_eq_den, Int.neg_tdiv]

theorem truncToZero_eq_ceil (q : ℚ) (h : q < 0) : truncToZero q = ⌈q⌉ := by
  have h1 : truncToZero q = -truncToZero (-q) := by
    rw [truncToZero_neg, neg_neg]
  rw [h1, truncToZero_eq_floor (-q) (by linarith), Int.floor_neg, neg_neg]

theorem truncToZero_intCast (a : Int) : truncToZero (a : ℚ) = a := by
  rcases le_or_lt 0 (a : ℚ) with h | h
  · rw [truncToZero_eq_floor _ h, Int.floor_intCast]
  · rw [truncToZero_eq_ceil _ h, Int.ceil_intCast]

theorem get_age_group_num (q : ℚ) :
    get_age_group (.num q) = classify_int (truncToZero q) := rfl

theorem classify_int_eq_of_floor (q : ℚ) (n : Int) (h0 : 0 ≤ q)
    (hl : (n : ℚ) ≤ q) (hu : q < n + 1) :
    get_age_group (.num q) = classify_int n := by
  rw [get_age_group_num, truncToZero_eq_floor q h0]
  congr 1
  exact Int.floor_eq_iff.mpr ⟨hl, by exact_mod_cast hu⟩

/-- C1: integer ages in [0,14] classify to `0-14 Years`, in [15,49] to
`15-49 Years`, in [50,64] to `50-64 Years`, ages at least 65 to
`65+ Years`, and missing or non-numeric input (integer coercion fails)
classifies to `Unknown`. -/
theorem age_bucketing_partition (a : Int) :
    (0 ≤ a → a ≤ 14 → get_age_group (.num (a : ℚ)) = "0-14 Years") ∧
    (15 ≤ a → a ≤ 49 → get_age_group (.num (a : ℚ)) = "15-49 Years") ∧
    (50 ≤ a → a ≤ 64 → get_age_group (.num (a : ℚ)) = "50-64 Years") ∧
    (65 ≤ a → get_age_group (.num (a : ℚ)) = "65+ Years") ∧
    get_age_group .missing = "Unknown" ∧
    get_age_group .nonNumeric = "Unknown" := by
  have hb : get_age_group (.num (a : ℚ)) = classify_int a := by
    rw [get_age_group_num, truncToZero_intCast]
  refine ⟨fun h1 h2 => ?_, fun h1 h2 => ?_, fun h1 h2 => ?_, fun h1 => ?_, rfl, rfl⟩ <;>
    rw [hb] <;> unfold classify_int <;> split_ifs <;> first | rfl | omega

theorem age_bucketing_partition_witness :
    get_age_group (.num ((7 : Int) : ℚ)) = "0-14 Years" ∧
    get_age_group (.num ((70 : Int) : ℚ)) = "65+ Years" :=
  ⟨(age_bucketing_partition 7).1 (by decide) (by decide),
   (age_bucketing_partition 70).2.2.2.1 (by decide)⟩

/-- C10: `get_age_group` classifies a numeric age by its truncation
toward zero, so a fractional age in [14,15) lands in `0-14 Years`, in
[49,50) in `15-49 Years`, and in [64,65) in `50-64 Years`. -/
theorem age_fractional_boundary_truncation (q : ℚ) :
    (14 ≤ q → q < 15 → get_age_group (.num q) = "0-14 Years") ∧
    (49 ≤ q → q < 50 → get_age_group (.num q) = "15-49 Years") ∧
    (64 ≤ q → q < 65 → get_age_group (.num q) = "50-64 Years") := by
  refine ⟨fun h1 h2 => ?_, fun h1 h2 => ?_, fun h1 h2 => ?_⟩
  · rw [classify_int_eq_of_floor q 14 (by linarith) (by exact_mod_cast h1)
      (by push_cast; linarith)]
    decide
  · rw [classify_int_eq_of_floor q 49 (by linarith) (by exact_mod_cast h1)
      (by push_cast; linarith)]
    decide
  · rw [classify_int_eq_of_floor q 64 (by linarith) (by exact_mod_cast h1)
      (by push_cast; linarith)]
    decide

theorem age_fractional_boundary_truncation_witness :
    get_age_group (.num (mkRat 149 10)) = "0-14 Years" :=
  (age_fractional_boundary_truncation (mkRat 149 10)).1 (by decide) (by decide)

/-- C5 counterexample: integer coercion succeeds on the value -1, yet the
final fall-through branch of `get_age_group` is reached there (no bucket
matches a negative integer), so the branch is not dead code for every
successfully coerced input. -/
theorem else_branch_reached_at_neg_one :
    int_coerce (.num (-1)) = some (-1) ∧ else_branch_reached (-1) ∧
    get_age_group (.num (-1)) = "Unknown" := by
  refine ⟨by decide, by decide, by decide⟩

/-- C5 amended: the fall-through `else` branch of `get_age_group` is
reached exactly on the negative coerced integers, and when reached it
returns `Unknown`; for every nonnegative integer one of the four buckets
matches and the branch is never reached. -/
theorem else_branch_reached_iff_neg (age : Int) :
    (else_branch_reached age ↔ age < 0) ∧
    (else_branch_reached age → classify_int age = "Unknown") := by
  constructor
  · unfold else_branch_reached
    omega
  · intro h
    unfold else_branch_reached at h
    unfold classify_int
    split_ifs <;> first | rfl | omega

theorem else_branch_reached_iff_neg_witness :
    classify_int (-3) = "Unknown" :=
  (else_branch_reached_iff_neg (-3)).2 (by decide)

example : deriveRecords [fluRow] = [fluRecord] := by decide
example : deriveRecords [badRow] = [] := by decide

/-- C2: a raw row is dropped from the working set if and only if at
least one of its dates failed to parse; a row with both dates parseable
survives the hard drop, which the pipeline applies once, before any
user-selectable filtering. -/
theorem hard_drop_iff_unparsed_date (rows : List RawRow) (r : RawRow)
    (h : r ∈ rows) :
    r ∉ drop_incomplete rows ↔
      r.event_date = none ∨ r.discharge_date = none := by
  unfold drop_incomplete
  rw [List.mem_filter]
  constructor
  · intro hn
    by_contra hc
    push_neg at hc
    exact hn ⟨h, by
      rw [Bool.and_eq_true, Option.isSome_iff_ne_none, Option.isSome_iff_ne_none]
      exact ⟨hc.1, hc.2⟩⟩
  · rintro (he | hd) ⟨-, hb⟩ <;>
      · rw [Bool.and_eq_true, Option.isSome_iff_ne_none,
          Option.isSome_iff_ne_none] at hb
        first | exact hb.1 he | exact hb.2 hd

theorem hard_drop_iff_unparsed_date_witness :
    badRow ∉ drop_incomplete [badRow] :=
  (hard_drop_iff_unparsed_date [badRow] badRow (by decide)).mpr (Or.inl rfl)

/-- C4: every record surviving the hard drop carries
`length_of_stay_days` equal to the signed fractional day difference
`(event_date - discharge_date) / (24*3600)` of its parsed timestamps;
the field is computed only for surviving records (it exists only on
`deriveRecords` output). -/
theorem los_eq_signed_day_difference (rows : List RawRow) (rec : Record)
    (h : rec ∈ deriveRecords rows) :
    rec.length_of_stay_days =
      (rec.event_date - rec.discharge_date) / (24 * 3600) := by
  unfold deriveRecords at h
  obtain ⟨r, hr, hmk⟩ := List.mem_filterMap.mp h
  cases he : r.event_date with
  | none => rw [mkRecord, he] at hmk; cases hmk
  | some e =>
    cases hd : r.discharge_date with
    | none => rw [mkRecord, he, hd] at hmk; cases hmk
    | some d =>
      rw [mkRecord, he, hd, Option.some_inj] at hmk
      rw [← hmk]

theorem los_eq_signed_day_difference_witness :
    fluRecord.length_of_stay_days =
      (fluRecord.event_date - fluRecord.discharge_date) / (24 * 3600) :=
  los_eq_signed_day_difference [fluRow] fluRecord (by decide)

theorem applyFilters_eq_filter (recs : List Record) (sel : Selectors) :
    applyFilters recs sel = recs.filter (selPred sel) := by
  unfold applyFilters selPred
  cases hm : sel.month == "All" <;>
    cases hd : sel.diagnosis == "All Diagnoses" <;>
      cases ha : sel.age_group == "All Age Groups" <;>
        cases ho : sel.org_unit == "All Units" <;>
          simp [← beq_iff_eq (α := String), hm, hd, ha, ho,
            List.filter_filter, Bool.and_comm, Bool.and_assoc,
            Bool.and_left_comm]

/-- C3: a record appears in the filtered set if and only if it is in the
input set and, for each selector that is not its sentinel, the record's
corresponding field equals the selected value. -/
theorem filter_membership_conjunction (recs : List Record)
    (sel : Selectors) (r : Record) :
    r ∈ applyFilters recs sel ↔
      r ∈ recs ∧ (sel.month ≠ "All" → r.month = sel.month) ∧
      (sel.diagnosis ≠ "All Diagnoses" →
        r.primary_diagnosis = sel.diagnosis) ∧
      (sel.age_group ≠ "All Age Groups" → r.age_group = sel.age_group) ∧
      (sel.org_unit ≠ "All Units" →
        r.organisation_unit = sel.org_unit) := by
  rw [applyFilters_eq_filter, List.mem_filter]
  unfold selPred
  simp only [Bool.and_eq_true, Bool.or_eq_true, beq_iff_eq]
  rw [or_iff_not_imp_left, or_iff_not_imp_left, or_iff_not_imp_left,
    or_iff_not_imp_left]
  tauto

theorem filter_membership_conjunction_witness :
    fluRecord ∈ applyFilters [fluRecord] monthSel :=
  (filter_membership_conjunction [fluRecord] monthSel fluRecord).mpr
    ⟨by decide, by decide, by decide, by decide, by decide⟩

/-- C7: with all four selectors set to their sentinels the filter engine
returns the derived record set unchanged. -/
theorem filter_all_sentinels_identity (recs : List Record) :
    applyFilters recs allSelectors = recs := by
  unfold applyFilters allSelectors
  simp

/-- C9: the filter engine is idempotent; filtering an already filtered
set with the same selectors leaves it unchanged. -/
theorem filter_idempotent (recs : List Record) (sel : Selectors) :
    applyFilters (applyFilters recs sel) sel = applyFilters recs sel := by
  rw [applyFilters_eq_filter, applyFilters_eq_filter, List.filter_filter]
  exact List.filter_congr fun a _ => Bool.and_self _

/-- C8: whenever the filtered set is empty, the row table and the whole
charts block each yield the explicit no-data output; no aggregate is
computed over the empty collection. -/
theorem empty_filter_yields_no_data (recs : List Record) (sel : Selectors)
    (h : applyFilters recs sel = []) :
    renderTable (applyFilters recs sel) = Display.noData ∧
    renderCharts (applyFilters recs sel) = Display.noData := by
  rw [h]
  exact ⟨rfl, rfl⟩

theorem empty_filter_yields_no_data_witness :
    renderTable (applyFilters [fluRecord] noMatchSel) = Display.noData ∧
    renderCharts (applyFilters [fluRecord] noMatchSel) = Display.noData :=
  empty_filter_yields_no_data [fluRecord] noMatchSel (by decide)

theorem mem_insertBy {α : Type} (le : α → α → Bool) (x : α) (l : List α)
    (z : α) : z ∈ insertBy le x l ↔ z = x ∨ z ∈ l := by
  induction l with
  | nil => simp [insertBy]
  | cons y ys ih =>
    unfold insertBy
    split
    · simp [or_comm, or_left_comm]
    · simp [ih, or_comm, or_left_comm]

theorem mem_sortBy {α : Type} (le : α → α → Bool) (l : List α) (z : α) :
    z ∈ sortBy le l ↔ z ∈ l := by
  induction l with
  | nil => simp [sortBy]
  | cons y ys ih => simp [sortBy, mem_insertBy, ih]

theorem pairwise_insertBy {α : Type} (le : α → α → Bool)
    (htot : ∀ a b, le a b = true ∨ le b a = true)
    (htrans : ∀ a b c, le a b = true → le b c = true → le a c = true)
    (x : α) (l : List α) (h : List.Pairwise (fun a b => le a b = true) l) :
    List.Pairwise (fun a b => le a b = true) (insertBy le x l) := by
  induction l with
  | nil => simp [insertBy]
  | cons y ys ih =>
    rw [List.pairwise_cons] at h
    unfold insertBy
    split
    · rename_i hxy
      rw [List.pairwise_cons]
      refine ⟨?_, List.pairwise_cons.mpr h⟩
      intro z hz
      rcases List.mem_cons.mp hz with hz | hz
      · exact hz ▸ hxy
      · exact htrans x y z hxy (h.1 z hz)
    · rename_i hxy
      have hyx : le y x = true := by
        rcases htot x y with h1 | h1
        · exact absurd h1 hxy
        · exact h1
      rw [List.pairwise_cons]
      refine ⟨?_, ih h.2⟩
      intro z hz
      rcases (mem_insertBy le x ys z).mp hz with hz | hz
      · exact hz ▸ hyx
      · exact h.1 z hz

theorem pairwise_sortBy {α : Type} (le : α → α → Bool)
    (htot : ∀ a b, le a b = true ∨ le b a = true)
    (htrans : ∀ a b c, le a b = true → le b c = true → le a c = true)
    (l : List α) :
    List.Pairwise (fun a b => le a b = true) (sortBy le l) := by
  induction l with
  | nil => simp [sortBy]
  | cons y ys ih => exact pairwise_insertBy le htot htrans y (sortBy le ys) ih

/-- C6: the average-length-of-stay-by-diagnosis aggregate has at most 10
entries, is sorted descending by mean value, and lists only diagnoses
that occur in some surviving record (empty groups are absent, not
zero). -/
theorem avg_los_top10_shape (recs : List Record) :
    (avg_los_by_diagnosis_top10 recs).length ≤ 10 ∧
    List.Pairwise (fun a b => b.2 ≤ a.2) (avg_los_by_diagnosis_top10 recs) ∧
    ∀ p ∈ avg_los_by_diagnosis_top10 recs,
      ∃ r ∈ recs, r.primary_diagnosis = p.1 := by
  refine ⟨?_, ?_, ?_⟩
  · rw [avg_los_by_diagnosis_top10, List.length_take]
    exact min_le_left _ _
  · have hp := pairwise_sortBy (α := String × ℚ)
      (fun a b => decide (b.2 ≤ a.2))
      (fun a b => by
        rcases le_total b.2 a.2 with h | h
        · exact Or.inl (decide_eq_true h)
        · exact Or.inr (decide_eq_true h))
      (fun a b c h1 h2 => decide_eq_true
        (le_trans (of_decide_eq_true h2) (of_decide_eq_true h1)))
      ((recs.map (fun r => r.primary_diagnosis)).dedup.map
        (fun k => (k, mean ((recs.filter
          (fun r => r.primary_diagnosis == k)).map
            (fun r => r.length_of_stay_days)))))
    exact (hp.take).imp (fun h => of_decide_eq_true h)
  · intro p hp
    have hp1 : p ∈ sortBy (fun a b => decide (b.2 ≤ a.2))
        ((recs.map (fun r => r.primary_diagnosis)).dedup.map
          (fun k => (k, mean ((recs.filter
            (fun r => r.primary_diagnosis == k)).map
              (fun r => r.length_of_stay_days))))) :=
      List.mem_of_mem_take hp
    rw [mem_sortBy] at hp1
    obtain ⟨k, hk, hkp⟩ := List.mem_map.mp hp1
    obtain ⟨r, hr, hrk⟩ := List.mem_map.mp (List.mem_dedup.mp hk)
    exact ⟨r, hr, by rw [hrk, ← hkp]⟩

theorem avg_los_top10_shape_witness :
    ∃ r ∈ [fluRecord], r.primary_diagnosis = "Flu" :=
  (avg_los_top10_shape [fluRecord]).2.2 ("Flu", 5) (by decide)
